import Mathlib

/-!
Shallow embedding of ironfish-rust/src/proofs/notes/minting_asset.rs.

The file under study builds, finalizes, serializes and verifies the
mint-asset Groth16 proof bundle.  External collaborators (the Groth16
proving system, the Jubjub curve, asset-type validation) are abstracted
as type parameters together with the operations the code calls on them;
everything the file itself computes (byte layout, scalar encoding,
bit packing of the asset identifier, the public-input vector, the
control flow of read/write/post/verify_proof) is embedded concretely.
-/

/-- A byte, as used throughout the wire format. -/
abbrev Byte := Fin 256

/-- The order of the BLS12-381 scalar field, the field of the circuit
public inputs (bls12_381::Scalar) and base field of Jubjub. -/
def qBLS : Nat :=
  52435875175126190479447740508185965837690552500527637822603658699938581184513

/-- A BLS12-381 scalar field element in canonical form. -/
abbrev Fq := Fin qBLS

theorem qBLS_pos : 0 < qBLS := by decide

theorem qBLS_lt_pow : qBLS < 256 ^ 32 := by decide

/-- Reduce a natural number into the scalar field. -/
def fqOfNat (x : Nat) : Fq := ⟨x % qBLS, Nat.mod_lt x qBLS_pos⟩

/-- Little-endian byte expansion with a fixed number of bytes, as in
the canonical to_bytes encodings of bls12_381 field elements. -/
def natToBytesLE : Nat → Nat → List Byte
  | 0, _ => []
  | k + 1, x => ⟨x % 256, Nat.mod_lt x (by omega)⟩ :: natToBytesLE k (x / 256)

/-- Little-endian byte interpretation. -/
def natOfBytesLE : List Byte → Nat
  | [] => 0
  | b :: t => b.val + 256 * natOfBytesLE t

theorem natToBytesLE_length (k : Nat) : ∀ x, (natToBytesLE k x).length = k := by
  induction k with
  | zero => intro x; rfl
  | succ k ih => intro x; simp [natToBytesLE, ih]

theorem natOfBytesLE_natToBytesLE (k : Nat) :
    ∀ x, x < 256 ^ k → natOfBytesLE (natToBytesLE k x) = x := by
  induction k with
  | zero => intro x hx; simp [Nat.pow_zero] at hx; simp [hx, natToBytesLE, natOfBytesLE]
  | succ k ih =>
    intro x hx
    have hdiv : x / 256 < 256 ^ k := by
      rw [Nat.div_lt_iff_lt_mul (by omega)]
      calc x < 256 ^ (k + 1) := hx
        _ = 256 ^ k * 256 := by rw [Nat.pow_succ]
    simp only [natToBytesLE, natOfBytesLE]
    rw [ih (x / 256) hdiv, Nat.mod_add_div]

/-- Canonical 32-byte little-endian encoding of a scalar
(bls12_381::Scalar::to_bytes). -/
def fqToBytes (x : Fq) : List Byte := natToBytesLE 32 x.val

/-- Canonical 32-byte decoding of a scalar; rejects non-canonical
representations (bls12_381::Scalar::from_bytes). -/
def fqFromBytes (bs : List Byte) : Option Fq :=
  let n := natOfBytesLE bs
  if h : n < qBLS then some ⟨n, h⟩ else none

theorem fqToBytes_length (x : Fq) : (fqToBytes x).length = 32 :=
  natToBytesLE_length 32 x.val

theorem fqFromBytes_fqToBytes (x : Fq) : fqFromBytes (fqToBytes x) = some x := by
  have hx : x.val < 256 ^ 32 := Nat.lt_trans x.isLt qBLS_lt_pow
  simp only [fqFromBytes, fqToBytes, natOfBytesLE_natToBytesLE 32 x.val hx]
  simp [x.isLt]

/-- Modelled from the spec: the protocol-wide asset identifier length,
a fixed constant declared in primitives/constants.rs (not included in
the sources under study); the identifier is a 32-byte string. -/
def ASSET_IDENTIFIER_LENGTH : Nat := 32

/-- Capacity in bits of a BLS12-381 scalar as used by the bellman
multipack gadget (Scalar::CAPACITY = 254): the number of identifier
bits packed into one field element. -/
def SCALAR_CAPACITY : Nat := 254

/-- Bits of one byte, least significant first
(bellman::gadgets::multipack::bytes_to_bits_le, per byte). -/
def byteToBitsLE (b : Byte) : List Bool :=
  (List.range 8).map (fun i => Nat.testBit b.val i)

/-- Little-endian bit expansion of a byte string
(bellman::gadgets::multipack::bytes_to_bits_le). -/
def bytesToBitsLE : List Byte → List Bool
  | [] => []
  | b :: t => byteToBitsLE b ++ bytesToBitsLE t

theorem byteToBitsLE_length (b : Byte) : (byteToBitsLE b).length = 8 := by
  simp [byteToBitsLE]

theorem bytesToBitsLE_length (bs : List Byte) :
    (bytesToBitsLE bs).length = 8 * bs.length := by
  induction bs with
  | nil => rfl
  | cons b t ih =>
    simp [bytesToBitsLE, byteToBitsLE_length, ih]
    omega

/-- Value of a little-endian bit string. -/
def natOfBits : List Bool → Nat
  | [] => 0
  | b :: t => (if b then 1 else 0) + 2 * natOfBits t

/-- Split a bit string into chunks of SCALAR_CAPACITY bits, fuel-indexed
so that the definition is structurally recursive. -/
def chunksGo : Nat → List Bool → List (List Bool)
  | 0, _ => []
  | _ + 1, [] => []
  | fuel + 1, b :: t =>
    (b :: t).take SCALAR_CAPACITY :: chunksGo fuel ((b :: t).drop SCALAR_CAPACITY)

/-- Split a bit string into chunks of SCALAR_CAPACITY bits. -/
def chunksCap (l : List Bool) : List (List Bool) := chunksGo l.length l

/-- Pack a bit string into field elements, one chunk of SCALAR_CAPACITY
bits per element (bellman::gadgets::multipack::compute_multipacking). -/
def compute_multipacking (bits : List Bool) : List Fq :=
  (chunksCap bits).map (fun c => fqOfNat (natOfBits c))

theorem chunksGo_nil (fuel : Nat) : chunksGo fuel [] = [] := by
  cases fuel <;> rfl

theorem chunksGo_small (fuel : Nat) (l : List Bool) (hne : l ≠ [])
    (hlen : l.length ≤ SCALAR_CAPACITY) (hfuel : 1 ≤ fuel) :
    chunksGo fuel l = [l] := by
  cases fuel with
  | zero => omega
  | succ f =>
    cases l with
    | nil => exact absurd rfl hne
    | cons b t =>
      have htake : (b :: t).take SCALAR_CAPACITY = b :: t :=
        List.take_of_length_le hlen
      have hdrop : (b :: t).drop SCALAR_CAPACITY = [] :=
        List.drop_eq_nil_of_le hlen
      simp [chunksGo, htake, hdrop, chunksGo_nil]

theorem chunksCap_of_length_256 (l : List Bool) (h : l.length = 256) :
    chunksCap l = [l.take SCALAR_CAPACITY, l.drop SCALAR_CAPACITY] := by
  cases l with
  | nil => simp at h
  | cons b t =>
    have ht : t.length = 255 := by simpa using h
    have hdroplen : ((b :: t).drop SCALAR_CAPACITY).length = 2 := by
      simp [List.length_drop, ht, SCALAR_CAPACITY]
    have hdropne : (b :: t).drop SCALAR_CAPACITY ≠ [] := by
      intro hc
      rw [hc] at hdroplen
      simp at hdroplen
    unfold chunksCap
    rw [h]
    have hstep : chunksGo 256 (b :: t) =
        (b :: t).take SCALAR_CAPACITY ::
          chunksGo 255 ((b :: t).drop SCALAR_CAPACITY) := rfl
    rw [hstep, chunksGo_small 255 _ hdropne (by rw [hdroplen]; decide) (by omega)]

theorem compute_multipacking_of_length_32 (idb : List Byte)
    (h : idb.length = 32) :
    compute_multipacking (bytesToBitsLE idb) =
      [fqOfNat (natOfBits ((bytesToBitsLE idb).take SCALAR_CAPACITY)),
       fqOfNat (natOfBits ((bytesToBitsLE idb).drop SCALAR_CAPACITY))] := by
  have hb : (bytesToBitsLE idb).length = 256 := by
    rw [bytesToBitsLE_length, h]
  simp [compute_multipacking, chunksCap_of_length_256 _ hb]

/-- Errors surfaced by the minting-asset subsystem
(errors::SaplingProofError as used by this file: IO and decode failures,
proof-construction failure, and the verification failure). -/
inductive SaplingProofError where
  | IOError : SaplingProofError
  | SaplingProofGenerationError : SaplingProofError
  | VerificationFailed : SaplingProofError
deriving DecidableEq

/-- Consume exactly n bytes from the front of a stream, failing on
truncation (std::io::Read::read_exact into an n-byte buffer). -/
def takeExact (n : Nat) (bs : List Byte) : Option (List Byte × List Byte) :=
  if n ≤ bs.length then some (bs.take n, bs.drop n) else none

/-- Modelled from the spec: serializing::read_scalar (declared outside
the sources under study) reads a 32-byte canonical little-endian scalar
and rejects non-canonical encodings. -/
def read_scalar (bs : List Byte) : Option (Fq × List Byte) :=
  match takeExact 32 bs with
  | none => none
  | some (c, r) =>
    match fqFromBytes c with
    | none => none
    | some s => some (s, r)

theorem takeExact_append (n : Nat) (a r : List Byte) (h : a.length = n) :
    takeExact n (a ++ r) = some (a, r) := by
  unfold takeExact
  rw [if_pos (by rw [List.length_append]; omega)]
  rw [← h, List.take_left, List.drop_left]

theorem takeExact_eq_some (n : Nat) (bs a r : List Byte)
    (h : takeExact n bs = some (a, r)) : bs = a ++ r ∧ a.length = n := by
  unfold takeExact at h
  by_cases hle : n ≤ bs.length
  · rw [if_pos hle] at h
    obtain ⟨h1, h2⟩ := Prod.mk.injEq _ _ _ _ ▸ Option.some.injEq _ _ ▸ h
    constructor
    · rw [← h1, ← h2, List.take_append_drop]
    · rw [← h1, List.length_take]; omega
  · rw [if_neg hle] at h
    exact absurd h (by simp)

theorem read_scalar_append (x : Fq) (r : List Byte) :
    read_scalar (fqToBytes x ++ r) = some (x, r) := by
  unfold read_scalar
  rw [takeExact_append 32 _ r (fqToBytes_length x)]
  simp [fqFromBytes_fqToBytes x]

theorem read_scalar_eq_some (bs : List Byte) (s : Fq) (r : List Byte)
    (h : read_scalar bs = some (s, r)) :
    ∃ c, bs = c ++ r ∧ c.length = 32 ∧ fqFromBytes c = some s := by
  unfold read_scalar at h
  rcases htake : takeExact 32 bs with _ | ⟨c, r2⟩
  · rw [htake] at h; exact absurd h (by simp)
  · rw [htake] at h
    simp only [] at h
    rcases hfq : fqFromBytes c with _ | s2
    · rw [hfq] at h; exact absurd h (by simp)
    · rw [hfq] at h
      simp only [Option.some.injEq, Prod.mk.injEq] at h
      obtain ⟨h1, h2⟩ := h
      obtain ⟨hbs, hlen⟩ := takeExact_eq_some 32 bs c r2 htake
      exact ⟨c, by rw [hbs, h2], hlen, by rw [hfq, h1]⟩

/-- The witness handed to the mint-asset circuit
(proofs::circuit::mint_asset::MintAsset, mirrored from its construction
in MintAssetParams::new). -/
structure MintAsset (AssetInfo PGKey Fr AuthPath VCm : Type) where
  asset_info : Option AssetInfo
  proof_generation_key : Option PGKey
  create_commitment_randomness : Option Fr
  mint_commitment_randomness : Option Fr
  auth_path : AuthPath
  anchor : Option Fq
  value_commitment : Option VCm

/-- The prover-side bundle (struct MintAssetParams): proof, retained
randomness, commitments, placeholder, value commitment point, asset
type and root hash. -/
structure MintAssetParams (Proof Fr Point AssetType : Type) where
  proof : Proof
  _mint_commitment_randomness : Fr
  create_asset_commitment : Fq
  mint_asset_commitment : Fq
  encrypted_note : List Byte
  value_commitment : Point
  asset_type : AssetType
  root_hash : Fq

/-- The public bundle (struct MintAssetProof): the prover bundle with
the retained randomness removed. -/
structure MintAssetProof (Proof Point AssetType : Type) where
  proof : Proof
  create_asset_commitment : Fq
  mint_asset_commitment : Fq
  encrypted_note : List Byte
  value_commitment : Point
  asset_type : AssetType
  root_hash : Fq
deriving DecidableEq

/-- The create-asset note as consumed by MintAssetParams::new: its
blinding randomness and its commitment point. -/
structure CreateAssetNote (Fr : Type) where
  randomness : Fr
  commitment_point : Fq

/-- The mint-asset note as consumed by MintAssetParams::new: asset
info, blinding randomness, value and commitment point. -/
structure MintAssetNote (Fr AssetInfo : Type) where
  asset_info : AssetInfo
  randomness : Fr
  value : Nat
  commitment_point : Fq

section Model

variable {Proof Point AssetType VK Fr AssetInfo PGKey AuthPath VCm SaplingKey W : Type}
variable (proofWrite : Proof → List Byte)
variable (proofRead : List Byte → Except Unit (Proof × List Byte))
variable (pointToBytes : Point → List Byte)
variable (pointFromBytes : List Byte → Option Point)
variable (toAffine : Point → Fq × Fq)
variable (getIdentifier : AssetType → List Byte)
variable (fromIdentifier : List Byte → Except Unit AssetType)
variable (verify_oracle : VK → Proof → List Fq → Except Unit Unit)
variable (vk : VK)
variable (asset_type_of : AssetInfo → AssetType)
variable (value_commitment_fn : AssetType → Nat → Fr → VCm)
variable (commitment_of : VCm → Point)
variable (from_bytes_wide : List Byte → Fr)
variable (sapling_proof_generation_key : SaplingKey → PGKey)
variable (sapling_auth_path : W → AuthPath)
variable (root_hash_of : W → Fq)
variable (prove : MintAsset AssetInfo PGKey Fr AuthPath VCm → Except Unit Proof)

/-- MintAssetProof::serialize_signature_fields: proof bytes, the two
commitment scalars, the compressed value-commitment point, the asset
identifier, the reserved placeholder and the root hash, in order. -/
def MintAssetProof.serialize_signature_fields
    (b : MintAssetProof Proof Point AssetType) : List Byte :=
  proofWrite b.proof ++
    fqToBytes b.create_asset_commitment ++
    fqToBytes b.mint_asset_commitment ++
    pointToBytes b.value_commitment ++
    getIdentifier b.asset_type ++
    b.encrypted_note ++
    fqToBytes b.root_hash

/-- MintAssetProof::write delegates to serialize_signature_fields. -/
def MintAssetProof.write (b : MintAssetProof Proof Point AssetType) : List Byte :=
  b.serialize_signature_fields proofWrite pointToBytes getIdentifier

/-- MintAssetParams::serialize_signature_fields: identical field order
on the prover bundle. -/
def MintAssetParams.serialize_signature_fields
    (p : MintAssetParams Proof Fr Point AssetType) : List Byte :=
  proofWrite p.proof ++
    fqToBytes p.create_asset_commitment ++
    fqToBytes p.mint_asset_commitment ++
    pointToBytes p.value_commitment ++
    getIdentifier p.asset_type ++
    p.encrypted_note ++
    fqToBytes p.root_hash

/-- MintAssetProof::read: decode the wire form field by field, failing
with an error on truncation, a non-canonical scalar, an invalid curve
point or an unrecognized asset identifier. -/
def MintAssetProof.read (bs : List Byte) :
    Except SaplingProofError (MintAssetProof Proof Point AssetType × List Byte) :=
  match proofRead bs with
  | .error _ => .error .IOError
  | .ok (proof, r1) =>
    match read_scalar r1 with
    | none => .error .IOError
    | some (create_asset_commitment, r2) =>
      match read_scalar r2 with
      | none => .error .IOError
      | some (mint_asset_commitment, r3) =>
        match takeExact 32 r3 with
        | none => .error .IOError
        | some (vbytes, r4) =>
          match pointFromBytes vbytes with
          | none => .error .IOError
          | some value_commitment =>
            match takeExact ASSET_IDENTIFIER_LENGTH r4 with
            | none => .error .IOError
            | some (idbytes, r5) =>
              match fromIdentifier idbytes with
              | .error _ => .error .IOError
              | .ok asset_type =>
                match takeExact 12 r5 with
                | none => .error .IOError
                | some (encrypted_note, r6) =>
                  match read_scalar r6 with
                  | none => .error .IOError
                  | some (root_hash, r7) =>
                    .ok ({ proof, create_asset_commitment,
                           mint_asset_commitment, encrypted_note,
                           value_commitment, asset_type, root_hash }, r7)

/-- MintAssetProof::verify_proof: build the seven-element public-input
vector (a zero-filled vector written by index, exactly as the source
does), then call the external verification oracle; an out-of-bounds
index into the multipacked identifier is modelled as none. -/
def MintAssetProof.verify_proof (b : MintAssetProof Proof Point AssetType) :
    Option (Except SaplingProofError Unit) :=
  let public_inputs0 := List.replicate 7 (fqOfNat 0)
  let identifier_bits := bytesToBitsLE (getIdentifier b.asset_type)
  let identifier_inputs := compute_multipacking identifier_bits
  match identifier_inputs[0]?, identifier_inputs[1]? with
  | some i0, some i1 =>
    let p1 := (public_inputs0.set 0 i0).set 1 i1
    let p2 := (p1.set 2 b.create_asset_commitment).set 3 b.root_hash
    let vcp := toAffine b.value_commitment
    let p3 := (p2.set 4 vcp.1).set 5 vcp.2
    let public_inputs := p3.set 6 b.mint_asset_commitment
    some (match verify_oracle vk b.proof public_inputs with
      | .error _ => .error SaplingProofError.VerificationFailed
      | .ok _ => .ok ())
  | _, _ => none

/-- MintAssetParams::post: strip the secrets into a fresh public
bundle, self-verify it, and return it only when verification passes. -/
def MintAssetParams.post (p : MintAssetParams Proof Fr Point AssetType) :
    Option (Except SaplingProofError (MintAssetProof Proof Point AssetType)) :=
  let mint_asset_proof : MintAssetProof Proof Point AssetType :=
    { proof := p.proof
      create_asset_commitment := p.create_asset_commitment
      mint_asset_commitment := p.mint_asset_commitment
      encrypted_note := List.replicate 12 (0 : Byte)
      value_commitment := p.value_commitment
      asset_type := p.asset_type
      root_hash := p.root_hash }
  match mint_asset_proof.verify_proof toAffine getIdentifier verify_oracle vk with
  | none => none
  | some (.error e) => some (.error e)
  | some (.ok _) => some (.ok mint_asset_proof)

/-- MintAssetParams::new: derive the proof generation key, draw fresh
value-commitment randomness by wide reduction of a 64-byte draw, build
the value commitment and the circuit witness, run the prover, and
assemble the prover bundle. -/
def MintAssetParams.new (minting_key : SaplingKey)
    (create_asset_note : CreateAssetNote Fr)
    (mint_asset_note : MintAssetNote Fr AssetInfo) (w : W)
    (rngDraw : List Byte) :
    Except SaplingProofError (MintAssetParams Proof Fr Point AssetType) :=
  let asset_info := mint_asset_note.asset_info
  let create_commitment_randomness := create_asset_note.randomness
  let mint_commitment_randomness := mint_asset_note.randomness
  let value := mint_asset_note.value
  let create_asset_commitment := create_asset_note.commitment_point
  let mint_asset_commitment := mint_asset_note.commitment_point
  let proof_generation_key := sapling_proof_generation_key minting_key
  let randomness := from_bytes_wide rngDraw
  let value_commitment :=
    value_commitment_fn (asset_type_of asset_info) value randomness
  let mint_circuit : MintAsset AssetInfo PGKey Fr AuthPath VCm :=
    { asset_info := some asset_info
      proof_generation_key := some proof_generation_key
      create_commitment_randomness := some create_commitment_randomness
      mint_commitment_randomness := some mint_commitment_randomness
      auth_path := sapling_auth_path w
      anchor := some (root_hash_of w)
      value_commitment := some value_commitment }
  match prove mint_circuit with
  | .error _ => .error .SaplingProofGenerationError
  | .ok mint_proof =>
    .ok { proof := mint_proof
          _mint_commitment_randomness := mint_commitment_randomness
          create_asset_commitment
          mint_asset_commitment
          encrypted_note := List.replicate 12 (0 : Byte)
          value_commitment := commitment_of value_commitment
          asset_type := asset_type_of asset_info
          root_hash := root_hash_of w }

end Model

theorem take_append_exact {n : Nat} (a r : List Byte) (h : a.length = n) :
    (a ++ r).take n = a := by
  rw [← h, List.take_left]

theorem drop_append_exact {n : Nat} (a r : List Byte) (h : a.length = n) :
    (a ++ r).drop n = r := by
  rw [← h, List.drop_left]

/-- Segment extraction for the fixed seven-field wire layout: each field
of the concatenation is recovered by dropping the preceding fields and
taking its own width. -/
theorem seven_segment_layout (a b c d e f g : List Byte)
    (hb : b.length = 32) (hc : c.length = 32) (hd : d.length = 32)
    (he : e.length = ASSET_IDENTIFIER_LENGTH) (hf : f.length = 12) :
    (a ++ b ++ c ++ d ++ e ++ f ++ g).length
        = a.length + ASSET_IDENTIFIER_LENGTH + 108 + g.length ∧
    (a ++ b ++ c ++ d ++ e ++ f ++ g).take a.length = a ∧
    ((a ++ b ++ c ++ d ++ e ++ f ++ g).drop a.length).take 32 = b ∧
    (((a ++ b ++ c ++ d ++ e ++ f ++ g).drop a.length).drop 32).take 32 = c ∧
    ((((a ++ b ++ c ++ d ++ e ++ f ++ g).drop a.length).drop 32).drop 32).take 32
        = d ∧
    (((((a ++ b ++ c ++ d ++ e ++ f ++ g).drop a.length).drop 32).drop
        32).drop 32).take ASSET_IDENTIFIER_LENGTH = e ∧
    ((((((a ++ b ++ c ++ d ++ e ++ f ++ g).drop a.length).drop 32).drop
        32).drop 32).drop ASSET_IDENTIFIER_LENGTH).take 12 = f ∧
    ((((((a ++ b ++ c ++ d ++ e ++ f ++ g).drop a.length).drop 32).drop
        32).drop 32).drop ASSET_IDENTIFIER_LENGTH).drop 12 = g := by
  have hra : a ++ b ++ c ++ d ++ e ++ f ++ g
      = a ++ (b ++ (c ++ (d ++ (e ++ (f ++ g))))) := by
    simp [List.append_assoc]
  have h1 : (a ++ b ++ c ++ d ++ e ++ f ++ g).drop a.length
      = b ++ (c ++ (d ++ (e ++ (f ++ g)))) := by
    rw [hra, List.drop_left]
  have h2 : (b ++ (c ++ (d ++ (e ++ (f ++ g))))).drop 32
      = c ++ (d ++ (e ++ (f ++ g))) := drop_append_exact _ _ hb
  have h3 : (c ++ (d ++ (e ++ (f ++ g)))).drop 32
      = d ++ (e ++ (f ++ g)) := drop_append_exact _ _ hc
  have h4 : (d ++ (e ++ (f ++ g))).drop 32 = e ++ (f ++ g) :=
    drop_append_exact _ _ hd
  have h5 : (e ++ (f ++ g)).drop ASSET_IDENTIFIER_LENGTH = f ++ g :=
    drop_append_exact _ _ he
  have h6 : (f ++ g).drop 12 = g := drop_append_exact _ _ hf
  refine ⟨?_, ?_, ?_, ?_, ?_, ?_, ?_, ?_⟩
  · rw [hra]
    simp only [List.length_append]
    omega
  · rw [hra, List.take_left]
  · rw [h1]; exact take_append_exact _ _ hb
  · rw [h1, h2]; exact take_append_exact _ _ hc
  · rw [h1, h2, h3]; exact take_append_exact _ _ hd
  · rw [h1, h2, h3, h4]; exact take_append_exact _ _ he
  · rw [h1, h2, h3, h4, h5]; exact take_append_exact _ _ hf
  · rw [h1, h2, h3, h4, h5, h6]

section Claims

variable {Proof Point AssetType VK Fr AssetInfo PGKey AuthPath VCm SaplingKey W : Type}
variable (proofWrite : Proof → List Byte)
variable (proofRead : List Byte → Except Unit (Proof × List Byte))
variable (pointToBytes : Point → List Byte)
variable (pointFromBytes : List Byte → Option Point)
variable (toAffine : Point → Fq × Fq)
variable (getIdentifier : AssetType → List Byte)
variable (fromIdentifier : List Byte → Except Unit AssetType)
variable (verify_oracle : VK → Proof → List Fq → Except Unit Unit)
variable (vk : VK)

/-- C2: serialization emits, in this fixed order with no extra length
prefixes, the proof bytes, then the 32-byte create-asset commitment,
the 32-byte mint-asset commitment, the 32-byte compressed
value-commitment point, the ASSET_IDENTIFIER_LENGTH-byte asset
identifier, the 12-byte reserved placeholder, and the 32-byte root
hash; this holds both for the public bundle serializer (write /
serialize_signature_fields) and for the prover bundle serializer. -/
theorem mint_asset_serialization_layout
    (b : MintAssetProof Proof Point AssetType)
    (p : MintAssetParams Proof Fr Point AssetType)
    (hbv : (pointToBytes b.value_commitment).length = 32)
    (hbid : (getIdentifier b.asset_type).length = ASSET_IDENTIFIER_LENGTH)
    (hbe : b.encrypted_note.length = 12)
    (hpv : (pointToBytes p.value_commitment).length = 32)
    (hpid : (getIdentifier p.asset_type).length = ASSET_IDENTIFIER_LENGTH)
    (hpe : p.encrypted_note.length = 12) :
    let outb := b.write proofWrite pointToBytes getIdentifier
    let outp := p.serialize_signature_fields proofWrite pointToBytes getIdentifier
    let kb := (proofWrite b.proof).length
    let kp := (proofWrite p.proof).length
    (outb.length = kb + ASSET_IDENTIFIER_LENGTH + 108 + 32 ∧
     outb.take kb = proofWrite b.proof ∧
     (outb.drop kb).take 32 = fqToBytes b.create_asset_commitment ∧
     ((outb.drop kb).drop 32).take 32 = fqToBytes b.mint_asset_commitment ∧
     (((outb.drop kb).drop 32).drop 32).take 32 = pointToBytes b.value_commitment ∧
     ((((outb.drop kb).drop 32).drop 32).drop 32).take ASSET_IDENTIFIER_LENGTH
         = getIdentifier b.asset_type ∧
     (((((outb.drop kb).drop 32).drop 32).drop 32).drop
         ASSET_IDENTIFIER_LENGTH).take 12 = b.encrypted_note ∧
     (((((outb.drop kb).drop 32).drop 32).drop 32).drop
         ASSET_IDENTIFIER_LENGTH).drop 12 = fqToBytes b.root_hash) ∧
    (outp.length = kp + ASSET_IDENTIFIER_LENGTH + 108 + 32 ∧
     outp.take kp = proofWrite p.proof ∧
     (outp.drop kp).take 32 = fqToBytes p.create_asset_commitment ∧
     ((outp.drop kp).drop 32).take 32 = fqToBytes p.mint_asset_commitment ∧
     (((outp.drop kp).drop 32).drop 32).take 32 = pointToBytes p.value_commitment ∧
     ((((outp.drop kp).drop 32).drop 32).drop 32).take ASSET_IDENTIFIER_LENGTH
         = getIdentifier p.asset_type ∧
     (((((outp.drop kp).drop 32).drop 32).drop 32).drop
         ASSET_IDENTIFIER_LENGTH).take 12 = p.encrypted_note ∧
     (((((outp.drop kp).drop 32).drop 32).drop 32).drop
         ASSET_IDENTIFIER_LENGTH).drop 12 = fqToBytes p.root_hash) := by
  intro outb outp kb kp
  have hb := seven_segment_layout (proofWrite b.proof)
    (fqToBytes b.create_asset_commitment) (fqToBytes b.mint_asset_commitment)
    (pointToBytes b.value_commitment) (getIdentifier b.asset_type)
    b.encrypted_note (fqToBytes b.root_hash)
    (fqToBytes_length _) (fqToBytes_length _) hbv hbid hbe
  have hp := seven_segment_layout (proofWrite p.proof)
    (fqToBytes p.create_asset_commitment) (fqToBytes p.mint_asset_commitment)
    (pointToBytes p.value_commitment) (getIdentifier p.asset_type)
    p.encrypted_note (fqToBytes p.root_hash)
    (fqToBytes_length _) (fqToBytes_length _) hpv hpid hpe
  constructor
  · have houtb : outb = proofWrite b.proof ++
        fqToBytes b.create_asset_commitment ++
        fqToBytes b.mint_asset_commitment ++
        pointToBytes b.value_commitment ++
        getIdentifier b.asset_type ++
        b.encrypted_note ++
        fqToBytes b.root_hash := rfl
    rw [houtb]
    obtain ⟨l1, l2, l3, l4, l5, l6, l7, l8⟩ := hb
    exact ⟨by rw [l1, fqToBytes_length], l2, l3, l4, l5, l6, l7, l8⟩
  · have houtp : outp = proofWrite p.proof ++
        fqToBytes p.create_asset_commitment ++
        fqToBytes p.mint_asset_commitment ++
        pointToBytes p.value_commitment ++
        getIdentifier p.asset_type ++
        p.encrypted_note ++
        fqToBytes p.root_hash := rfl
    rw [houtp]
    obtain ⟨l1, l2, l3, l4, l5, l6, l7, l8⟩ := hp
    exact ⟨by rw [l1, fqToBytes_length], l2, l3, l4, l5, l6, l7, l8⟩

/-- C9: when the corresponding fields of a prover bundle and a public
bundle are equal, the signing-field serialization of the prover bundle
and the wire serialization of the public bundle are byte-for-byte
identical. -/
theorem signing_and_wire_serialization_agree
    (p : MintAssetParams Proof Fr Point AssetType)
    (b : MintAssetProof Proof Point AssetType)
    (h1 : p.proof = b.proof)
    (h2 : p.create_asset_commitment = b.create_asset_commitment)
    (h3 : p.mint_asset_commitment = b.mint_asset_commitment)
    (h4 : p.value_commitment = b.value_commitment)
    (h5 : p.asset_type = b.asset_type)
    (h6 : p.encrypted_note = b.encrypted_note)
    (h7 : p.root_hash = b.root_hash) :
    p.serialize_signature_fields proofWrite pointToBytes getIdentifier
      = b.write proofWrite pointToBytes getIdentifier := by
  simp only [MintAssetParams.serialize_signature_fields, MintAssetProof.write,
    MintAssetProof.serialize_signature_fields, h1, h2, h3, h4, h5, h6, h7]

end Claims

section VerifyClaims

variable {Proof Point AssetType VK : Type}
variable (toAffine : Point → Fq × Fq)
variable (getIdentifier : AssetType → List Byte)
variable (verify_oracle : VK → Proof → List Fq → Except Unit Unit)
variable (vk : VK)

/-- Unfolding lemma: when the asset identifier has the protocol length,
verify_proof reduces to one oracle call on the literal seven-element
public-input vector. -/
theorem verify_proof_eq (b : MintAssetProof Proof Point AssetType)
    (hid : (getIdentifier b.asset_type).length = ASSET_IDENTIFIER_LENGTH) :
    b.verify_proof toAffine getIdentifier verify_oracle vk =
      some (match verify_oracle vk b.proof
          [fqOfNat (natOfBits
              ((bytesToBitsLE (getIdentifier b.asset_type)).take SCALAR_CAPACITY)),
           fqOfNat (natOfBits
              ((bytesToBitsLE (getIdentifier b.asset_type)).drop SCALAR_CAPACITY)),
           b.create_asset_commitment, b.root_hash,
           (toAffine b.value_commitment).1, (toAffine b.value_commitment).2,
           b.mint_asset_commitment] with
        | .error _ => .error SaplingProofError.VerificationFailed
        | .ok _ => .ok ()) := by
  have hml := compute_multipacking_of_length_32 (getIdentifier b.asset_type) hid
  simp only [MintAssetProof.verify_proof, hml]
  rfl

/-- C1: the public-input vector built by verify_proof has exactly seven
field elements, in the order: the two multipacked little-endian bit
chunks of the asset identifier, the create-asset commitment, the root
hash, the affine u and v coordinates of the value commitment, and the
mint-asset commitment; the oracle is invoked with the verifying key,
the proof and exactly this vector. -/
theorem verify_proof_public_input_vector (b : MintAssetProof Proof Point AssetType)
    (hid : (getIdentifier b.asset_type).length = ASSET_IDENTIFIER_LENGTH) :
    ∃ i0 i1,
      compute_multipacking (bytesToBitsLE (getIdentifier b.asset_type)) = [i0, i1] ∧
      ([i0, i1, b.create_asset_commitment, b.root_hash,
        (toAffine b.value_commitment).1, (toAffine b.value_commitment).2,
        b.mint_asset_commitment] : List Fq).length = 7 ∧
      b.verify_proof toAffine getIdentifier verify_oracle vk =
        some (match verify_oracle vk b.proof
            [i0, i1, b.create_asset_commitment, b.root_hash,
             (toAffine b.value_commitment).1, (toAffine b.value_commitment).2,
             b.mint_asset_commitment] with
          | .error _ => .error SaplingProofError.VerificationFailed
          | .ok _ => .ok ()) := by
  exact ⟨_, _, compute_multipacking_of_length_32 _ hid, rfl,
    verify_proof_eq toAffine getIdentifier verify_oracle vk b hid⟩

/-- C10: multipacking an identifier of the protocol length yields at
least two field elements, so the two unchecked accesses into the packed
identifier are in bounds and verify_proof reaches the oracle instead of
the out-of-bounds branch. -/
theorem multipack_identifier_in_bounds (b : MintAssetProof Proof Point AssetType)
    (hid : (getIdentifier b.asset_type).length = ASSET_IDENTIFIER_LENGTH) :
    2 ≤ (compute_multipacking (bytesToBitsLE (getIdentifier b.asset_type))).length ∧
    (b.verify_proof toAffine getIdentifier verify_oracle vk).isSome = true := by
  constructor
  · rw [compute_multipacking_of_length_32 _ hid]
    simp
  · rw [verify_proof_eq toAffine getIdentifier verify_oracle vk b hid]
    rfl

/-- C8: verify_proof maps every oracle failure to the single
VerificationFailed error, returns unit on oracle success, and lets no
other error out. -/
theorem verify_proof_error_mapping (b : MintAssetProof Proof Point AssetType)
    (hid : (getIdentifier b.asset_type).length = ASSET_IDENTIFIER_LENGTH) :
    ∃ pi : List Fq,
      (∀ u, verify_oracle vk b.proof pi = .ok u →
        b.verify_proof toAffine getIdentifier verify_oracle vk = some (.ok ())) ∧
      (∀ e, verify_oracle vk b.proof pi = .error e →
        b.verify_proof toAffine getIdentifier verify_oracle vk
          = some (.error SaplingProofError.VerificationFailed)) ∧
      (∀ r, b.verify_proof toAffine getIdentifier verify_oracle vk = some r →
        r = .ok () ∨ r = .error SaplingProofError.VerificationFailed) := by
  refine ⟨[fqOfNat (natOfBits
      ((bytesToBitsLE (getIdentifier b.asset_type)).take SCALAR_CAPACITY)),
    fqOfNat (natOfBits
      ((bytesToBitsLE (getIdentifier b.asset_type)).drop SCALAR_CAPACITY)),
    b.create_asset_commitment, b.root_hash,
    (toAffine b.value_commitment).1, (toAffine b.value_commitment).2,
    b.mint_asset_commitment], ?_, ?_, ?_⟩
  · intro u hu
    rw [verify_proof_eq toAffine getIdentifier verify_oracle vk b hid, hu]
  · intro e he
    rw [verify_proof_eq toAffine getIdentifier verify_oracle vk b hid, he]
  · intro r hr
    rw [verify_proof_eq toAffine getIdentifier verify_oracle vk b hid] at hr
    rcases horacle : verify_oracle vk b.proof
        [fqOfNat (natOfBits
            ((bytesToBitsLE (getIdentifier b.asset_type)).take SCALAR_CAPACITY)),
         fqOfNat (natOfBits
            ((bytesToBitsLE (getIdentifier b.asset_type)).drop SCALAR_CAPACITY)),
         b.create_asset_commitment, b.root_hash,
         (toAffine b.value_commitment).1, (toAffine b.value_commitment).2,
         b.mint_asset_commitment] with e | u
    · rw [horacle] at hr
      simp at hr
      exact Or.inr hr.symm
    · rw [horacle] at hr
      simp at hr
      exact Or.inl hr.symm

end VerifyClaims

section PostClaims

variable {Proof Point AssetType VK Fr : Type}
variable (toAffine : Point → Fq × Fq)
variable (getIdentifier : AssetType → List Byte)
variable (verify_oracle : VK → Proof → List Fq → Except Unit Unit)
variable (vk : VK)

/-- The public bundle assembled inside MintAssetParams::post before the
self-verification step: every public field of the prover bundle, with a
freshly zeroed 12-byte placeholder. -/
def MintAssetParams.strip (p : MintAssetParams Proof Fr Point AssetType) :
    MintAssetProof Proof Point AssetType :=
  { proof := p.proof
    create_asset_commitment := p.create_asset_commitment
    mint_asset_commitment := p.mint_asset_commitment
    encrypted_note := List.replicate 12 (0 : Byte)
    value_commitment := p.value_commitment
    asset_type := p.asset_type
    root_hash := p.root_hash }

theorem post_eq_strip (p : MintAssetParams Proof Fr Point AssetType) :
    p.post toAffine getIdentifier verify_oracle vk =
      match p.strip.verify_proof toAffine getIdentifier verify_oracle vk with
      | none => none
      | some (.error e) => some (.error e)
      | some (.ok _) => some (.ok p.strip) := rfl

/-- C4: post returns ok with the public bundle exactly when the full
verifier run on that freshly built bundle succeeds, and when
verification fails post propagates the verification error and returns
no bundle. -/
theorem post_gated_by_self_verification
    (p : MintAssetParams Proof Fr Point AssetType) :
    ∃ pub : MintAssetProof Proof Point AssetType,
      ((p.post toAffine getIdentifier verify_oracle vk = some (.ok pub)) ↔
        (pub.verify_proof toAffine getIdentifier verify_oracle vk
          = some (.ok ()))) ∧
      (∀ e, pub.verify_proof toAffine getIdentifier verify_oracle vk
          = some (.error e) →
        p.post toAffine getIdentifier verify_oracle vk = some (.error e)) := by
  refine ⟨p.strip, ?_, ?_⟩
  · rw [post_eq_strip]
    rcases hv : p.strip.verify_proof toAffine getIdentifier verify_oracle vk
        with _ | r
    · simp
    · rcases r with e | u
      · simp
      · simp
  · intro e he
    rw [post_eq_strip, he]

/-- C7 (amended): the public bundle returned by post copies the
create-asset commitment, mint-asset commitment, value commitment,
asset type and root hash from the prover bundle, sets the 12-byte
placeholder to zero (rather than copying it), and its value does not
depend on the retained blinding randomness of the prover bundle. -/
theorem post_public_fields
    (p : MintAssetParams Proof Fr Point AssetType)
    (b : MintAssetProof Proof Point AssetType)
    (h : p.post toAffine getIdentifier verify_oracle vk = some (.ok b)) :
    b.proof = p.proof ∧
    b.create_asset_commitment = p.create_asset_commitment ∧
    b.mint_asset_commitment = p.mint_asset_commitment ∧
    b.value_commitment = p.value_commitment ∧
    b.asset_type = p.asset_type ∧
    b.root_hash = p.root_hash ∧
    b.encrypted_note = List.replicate 12 (0 : Byte) ∧
    (∀ r : Fr,
      MintAssetParams.post toAffine getIdentifier verify_oracle vk
          { p with _mint_commitment_randomness := r }
        = p.post toAffine getIdentifier verify_oracle vk) := by
  rw [post_eq_strip] at h
  rcases hv : p.strip.verify_proof toAffine getIdentifier verify_oracle vk
      with _ | r
  · rw [hv] at h; exact absurd h (by simp)
  · rcases r with e | u
    · rw [hv] at h; exact absurd h (by simp)
    · rw [hv] at h
      simp only [Option.some.injEq, Except.ok.injEq] at h
      subst h
      exact ⟨rfl, rfl, rfl, rfl, rfl, rfl, rfl, fun r => rfl⟩

end PostClaims

theorem read_scalar_of_segment (c : List Byte) (s : Fq) (r : List Byte)
    (hlen : c.length = 32) (hfq : fqFromBytes c = some s) :
    read_scalar (c ++ r) = some (s, r) := by
  unfold read_scalar
  rw [takeExact_append 32 _ r hlen]
  simp [hfq]

section ReadClaims

variable {Proof Point AssetType : Type}
variable (proofWrite : Proof → List Byte)
variable (proofRead : List Byte → Except Unit (Proof × List Byte))
variable (pointToBytes : Point → List Byte)
variable (pointFromBytes : List Byte → Option Point)
variable (getIdentifier : AssetType → List Byte)
variable (fromIdentifier : List Byte → Except Unit AssetType)

/-- C3: decoding the encoding of a well-formed public bundle succeeds,
consumes the whole encoding, and returns the bundle field-for-field,
provided the external codecs round-trip their own output (true of the
Groth16 proof codec, the Jubjub point codec and asset-type
validation). -/
theorem read_write_round_trip
    (hproof : ∀ (pr : Proof) (rest : List Byte),
      proofRead (proofWrite pr ++ rest) = .ok (pr, rest))
    (hpoint : ∀ P : Point, pointFromBytes (pointToBytes P) = some P)
    (hplen : ∀ P : Point, (pointToBytes P).length = 32)
    (hident : ∀ t : AssetType, fromIdentifier (getIdentifier t) = .ok t)
    (hidlen : ∀ t : AssetType,
      (getIdentifier t).length = ASSET_IDENTIFIER_LENGTH)
    (b : MintAssetProof Proof Point AssetType)
    (hnote : b.encrypted_note.length = 12) :
    MintAssetProof.read proofRead pointFromBytes fromIdentifier
        (b.write proofWrite pointToBytes getIdentifier) = .ok (b, []) := by
  have hw : b.write proofWrite pointToBytes getIdentifier
      = proofWrite b.proof ++
          (fqToBytes b.create_asset_commitment ++
            (fqToBytes b.mint_asset_commitment ++
              (pointToBytes b.value_commitment ++
                (getIdentifier b.asset_type ++
                  (b.encrypted_note ++ fqToBytes b.root_hash))))) := by
    simp [MintAssetProof.write, MintAssetProof.serialize_signature_fields,
      List.append_assoc]
  have hfin : fqToBytes b.root_hash = fqToBytes b.root_hash ++ [] := by simp
  simp only [MintAssetProof.read, hw, hproof, read_scalar_append,
    takeExact_append 32 _ _ (hplen b.value_commitment),
    takeExact_append ASSET_IDENTIFIER_LENGTH _ _ (hidlen b.asset_type),
    takeExact_append 12 _ _ hnote, hpoint, hident]
  rw [hfin, read_scalar_append]

/-- C6: decoding is all-or-nothing: read returns ok exactly when the
input splits into a proof prefix accepted by the proof codec followed
by six segments of the mandated widths, each passing its canonical-form
validation (canonical scalars for the two commitments and the root
hash, a valid curve point, a recognized asset identifier); whenever any
validation fails or the input is truncated, read returns an error and
no partial bundle exists. -/
theorem read_all_or_nothing (bs : List Byte)
    (b : MintAssetProof Proof Point AssetType) (rest : List Byte) :
    MintAssetProof.read proofRead pointFromBytes fromIdentifier bs
        = .ok (b, rest) ↔
      ∃ r1 c32 m32 v32 idb n12 r32,
        proofRead bs = .ok (b.proof, r1) ∧
        r1 = c32 ++ (m32 ++ (v32 ++ (idb ++ (n12 ++ (r32 ++ rest))))) ∧
        c32.length = 32 ∧
        fqFromBytes c32 = some b.create_asset_commitment ∧
        m32.length = 32 ∧
        fqFromBytes m32 = some b.mint_asset_commitment ∧
        v32.length = 32 ∧
        pointFromBytes v32 = some b.value_commitment ∧
        idb.length = ASSET_IDENTIFIER_LENGTH ∧
        fromIdentifier idb = .ok b.asset_type ∧
        n12.length = 12 ∧
        b.encrypted_note = n12 ∧
        r32.length = 32 ∧
        fqFromBytes r32 = some b.root_hash := by
  constructor
  · intro h
    unfold MintAssetProof.read at h
    rcases hpr : proofRead bs with e | ⟨pr, r1⟩ <;> rw [hpr] at h
    · exact absurd h (by simp)
    simp only [] at h
    rcases hs1 : read_scalar r1 with _ | ⟨c, r2⟩ <;> rw [hs1] at h
    · exact absurd h (by simp)
    simp only [] at h
    rcases hs2 : read_scalar r2 with _ | ⟨m, r3⟩ <;> rw [hs2] at h
    · exact absurd h (by simp)
    simp only [] at h
    rcases ht3 : takeExact 32 r3 with _ | ⟨v32, r4⟩ <;> rw [ht3] at h
    · exact absurd h (by simp)
    simp only [] at h
    rcases hv : pointFromBytes v32 with _ | vc <;> rw [hv] at h
    · exact absurd h (by simp)
    simp only [] at h
    rcases ht4 : takeExact ASSET_IDENTIFIER_LENGTH r4 with _ | ⟨idb, r5⟩ <;>
      rw [ht4] at h
    · exact absurd h (by simp)
    simp only [] at h
    rcases hat : fromIdentifier idb with e | at_ <;> rw [hat] at h
    · exact absurd h (by simp)
    simp only [] at h
    rcases ht5 : takeExact 12 r5 with _ | ⟨n12, r6⟩ <;> rw [ht5] at h
    · exact absurd h (by simp)
    simp only [] at h
    rcases hs3 : read_scalar r6 with _ | ⟨rh, r7⟩ <;> rw [hs3] at h
    · exact absurd h (by simp)
    simp only [Except.ok.injEq, Prod.mk.injEq] at h
    obtain ⟨hb, hrest⟩ := h
    subst hrest
    subst hb
    obtain ⟨c32, hr1, hc32l, hc32⟩ := read_scalar_eq_some r1 c r2 hs1
    obtain ⟨m32, hr2, hm32l, hm32⟩ := read_scalar_eq_some r2 m r3 hs2
    obtain ⟨hr3, hv32l⟩ := takeExact_eq_some 32 r3 v32 r4 ht3
    obtain ⟨hr4, hidbl⟩ :=
      takeExact_eq_some ASSET_IDENTIFIER_LENGTH r4 idb r5 ht4
    obtain ⟨hr5, hn12l⟩ := takeExact_eq_some 12 r5 n12 r6 ht5
    obtain ⟨r32, hr6, hr32l, hr32⟩ := read_scalar_eq_some r6 rh r7 hs3
    refine ⟨r1, c32, m32, v32, idb, n12, r32, ?_, ?_, hc32l, hc32,
      hm32l, hm32, hv32l, hv, hidbl, hat, hn12l, rfl, hr32l, hr32⟩
    · rfl
    · rw [hr1, hr2, hr3, hr4, hr5, hr6]
  · rintro ⟨r1, c32, m32, v32, idb, n12, r32, hpr, hr1, hc32l, hc32,
      hm32l, hm32, hv32l, hv, hidbl, hat, hn12l, hn12, hr32l, hr32⟩
    unfold MintAssetProof.read
    rw [hpr]
    simp only []
    rw [hr1, read_scalar_of_segment c32 _ _ hc32l hc32]
    simp only []
    rw [read_scalar_of_segment m32 _ _ hm32l hm32]
    simp only []
    rw [takeExact_append 32 _ _ hv32l]
    simp only []
    rw [hv]
    simp only []
    rw [takeExact_append ASSET_IDENTIFIER_LENGTH _ _ hidbl]
    simp only []
    rw [hat]
    simp only []
    rw [takeExact_append 12 _ _ hn12l]
    simp only []
    rw [read_scalar_of_segment r32 _ _ hr32l hr32]
    simp only []
    rw [← hn12]

end ReadClaims

section NewClaims

variable {Proof Point AssetType Fr AssetInfo PGKey AuthPath VCm SaplingKey W : Type}
variable (asset_type_of : AssetInfo → AssetType)
variable (value_commitment_fn : AssetType → Nat → Fr → VCm)
variable (commitment_of : VCm → Point)
variable (from_bytes_wide : List Byte → Fr)
variable (sapling_proof_generation_key : SaplingKey → PGKey)
variable (sapling_auth_path : W → AuthPath)
variable (root_hash_of : W → Fq)
variable (prove : MintAsset AssetInfo PGKey Fr AuthPath VCm → Except Unit Proof)

/-- C5 (amended): the prover bundle returned by new retains, in its
randomness field, the mint-asset note commitment randomness (not the
fresh 64-byte wide-reduction draw of this call); the fresh draw is used
to compute the value commitment carried by the bundle and handed to the
circuit, and the bundle carries the proof, both commitment scalars, the
asset type, the root hash and a zero-valued placeholder. -/
theorem new_bundle_fields (minting_key : SaplingKey)
    (cn : CreateAssetNote Fr) (mn : MintAssetNote Fr AssetInfo) (w : W)
    (rngDraw : List Byte) (p : MintAssetParams Proof Fr Point AssetType)
    (h : MintAssetParams.new asset_type_of value_commitment_fn commitment_of
        from_bytes_wide sapling_proof_generation_key sapling_auth_path
        root_hash_of prove minting_key cn mn w rngDraw = .ok p) :
    p._mint_commitment_randomness = mn.randomness ∧
    p.create_asset_commitment = cn.commitment_point ∧
    p.mint_asset_commitment = mn.commitment_point ∧
    p.encrypted_note = List.replicate 12 (0 : Byte) ∧
    p.value_commitment = commitment_of (value_commitment_fn
        (asset_type_of mn.asset_info) mn.value (from_bytes_wide rngDraw)) ∧
    p.asset_type = asset_type_of mn.asset_info ∧
    p.root_hash = root_hash_of w ∧
    (∃ c : MintAsset AssetInfo PGKey Fr AuthPath VCm,
      prove c = .ok p.proof ∧
      c.value_commitment = some (value_commitment_fn
          (asset_type_of mn.asset_info) mn.value (from_bytes_wide rngDraw)) ∧
      c.mint_commitment_randomness = some mn.randomness ∧
      c.create_commitment_randomness = some cn.randomness ∧
      c.anchor = some (root_hash_of w) ∧
      c.proof_generation_key = some (sapling_proof_generation_key minting_key)) := by
  simp only [MintAssetParams.new] at h
  split at h
  · exact absurd h (by simp)
  · simp only [Except.ok.injEq] at h
    subst h
    rename_i mint_proof hp
    exact ⟨rfl, rfl, rfl, rfl, rfl, rfl, rfl, _, hp, rfl, rfl, rfl, rfl, rfl⟩

end NewClaims

/-- Trivial instantiation of the proof codec, for concrete runs. -/
def toyProofWrite : Unit → List Byte := fun _ => []

/-- Trivial instantiation of the proof decoder, for concrete runs. -/
def toyProofRead : List Byte → Except Unit (Unit × List Byte) :=
  fun bs => .ok ((), bs)

/-- Trivial instantiation of the point encoder, for concrete runs. -/
def toyPointToBytes : Unit → List Byte := fun _ => List.replicate 32 (0 : Byte)

/-- Trivial instantiation of the point decoder, for concrete runs. -/
def toyPointFromBytes : List Byte → Option Unit := fun _ => some ()

/-- Trivial affine-coordinate map, for concrete runs. -/
def toyToAffine : Unit → Fq × Fq := fun _ => (fqOfNat 0, fqOfNat 0)

/-- Trivial asset identifier accessor, for concrete runs. -/
def toyGetIdentifier : Unit → List Byte := fun _ => List.replicate 32 (0 : Byte)

/-- Trivial asset identifier validator, for concrete runs. -/
def toyFromIdentifier : List Byte → Except Unit Unit := fun _ => .ok ()

/-- An always-accepting verification oracle, for concrete runs. -/
def toyOracleOk : Unit → Unit → List Fq → Except Unit Unit := fun _ _ _ => .ok ()

/-- A concrete public bundle for concrete runs. -/
def toyBundle : MintAssetProof Unit Unit Unit :=
  { proof := ()
    create_asset_commitment := fqOfNat 1
    mint_asset_commitment := fqOfNat 2
    encrypted_note := List.replicate 12 (0 : Byte)
    value_commitment := ()
    asset_type := ()
    root_hash := fqOfNat 3 }

/-- A concrete prover bundle whose reserved placeholder is all ones. -/
def toyParams : MintAssetParams Unit Nat Unit Unit :=
  { proof := ()
    _mint_commitment_randomness := 0
    create_asset_commitment := fqOfNat 1
    mint_asset_commitment := fqOfNat 2
    encrypted_note := List.replicate 12 (1 : Byte)
    value_commitment := ()
    asset_type := ()
    root_hash := fqOfNat 3 }

/-- A concrete prover bundle agreeing field-for-field with toyBundle. -/
def toyParamsZ : MintAssetParams Unit Nat Unit Unit :=
  { proof := ()
    _mint_commitment_randomness := 0
    create_asset_commitment := fqOfNat 1
    mint_asset_commitment := fqOfNat 2
    encrypted_note := List.replicate 12 (0 : Byte)
    value_commitment := ()
    asset_type := ()
    root_hash := fqOfNat 3 }

/-- Trivial asset-info to asset-type map, for concrete runs. -/
def toyAssetTypeOf : Unit → Unit := fun _ => ()

/-- A value-commitment map returning the blinding randomness itself, so
that the randomness actually used is visible in the output. -/
def toyValueCommit : Unit → Nat → Nat → Nat := fun _ _ r => r

/-- Trivial commitment-point extraction, for concrete runs. -/
def toyCommitmentOf : Nat → Nat := fun v => v

/-- A wide-reduction map sending every 64-byte draw to 1, distinct from
the toy mint-note randomness 0. -/
def toyFromBytesWide : List Byte → Nat := fun _ => 1

/-- Trivial proof-generation-key derivation, for concrete runs. -/
def toyPGK : Unit → Unit := fun _ => ()

/-- Trivial authentication-path accessor, for concrete runs. -/
def toyAuthPath : Unit → Unit := fun _ => ()

/-- Trivial root-hash accessor, for concrete runs. -/
def toyRootHash : Unit → Fq := fun _ => fqOfNat 3

/-- An always-succeeding prover, for concrete runs. -/
def toyProve : MintAsset Unit Unit Nat Unit Nat → Except Unit Unit :=
  fun _ => .ok ()

/-- A concrete create-asset note, for concrete runs. -/
def toyCreateNote : CreateAssetNote Nat :=
  { randomness := 5, commitment_point := fqOfNat 1 }

/-- A concrete mint-asset note with randomness 0, for concrete runs. -/
def toyMintNote : MintAssetNote Nat Unit :=
  { asset_info := (), randomness := 0, value := 7, commitment_point := fqOfNat 2 }

/-- A concrete 64-byte randomness draw, for concrete runs. -/
def toyDraw : List Byte := List.replicate 64 (0 : Byte)

/-- The prover bundle new produces on the toy inputs. -/
def toyNewExpected : MintAssetParams Unit Nat Nat Unit :=
  { proof := ()
    _mint_commitment_randomness := 0
    create_asset_commitment := fqOfNat 1
    mint_asset_commitment := fqOfNat 2
    encrypted_note := List.replicate 12 (0 : Byte)
    value_commitment := 1
    asset_type := ()
    root_hash := fqOfNat 3 }

/-- The public bundle post produces on toyParams. -/
def toyPostExpected : MintAssetProof Unit Unit Unit :=
  { proof := ()
    create_asset_commitment := fqOfNat 1
    mint_asset_commitment := fqOfNat 2
    encrypted_note := List.replicate 12 (0 : Byte)
    value_commitment := ()
    asset_type := ()
    root_hash := fqOfNat 3 }

/-- C5 counterexample: on a concrete input where the fresh
wide-reduction draw reduces to 1 while the mint-asset note randomness
is 0, new succeeds, computes the value commitment from the fresh draw,
yet stores the mint-note randomness 0 — not the fresh draw — in the
randomness field of the returned bundle. -/
theorem new_retained_randomness_cex :
    MintAssetParams.new toyAssetTypeOf toyValueCommit toyCommitmentOf
        toyFromBytesWide toyPGK toyAuthPath toyRootHash toyProve ()
        toyCreateNote toyMintNote () toyDraw = .ok toyNewExpected ∧
    toyNewExpected.value_commitment
      = toyCommitmentOf (toyValueCommit (toyAssetTypeOf ())
          toyMintNote.value (toyFromBytesWide toyDraw)) ∧
    toyNewExpected._mint_commitment_randomness = toyMintNote.randomness ∧
    toyNewExpected._mint_commitment_randomness ≠ toyFromBytesWide toyDraw :=
  ⟨rfl, rfl, rfl, by decide⟩

set_option maxRecDepth 8000 in
/-- C7 counterexample: post on a prover bundle whose reserved
placeholder is all ones returns a public bundle whose placeholder is
all zeros, so the output placeholder is not a copy of the input
placeholder. -/
theorem post_placeholder_cex :
    toyParams.post toyToAffine toyGetIdentifier toyOracleOk ()
        = some (.ok toyPostExpected) ∧
    toyPostExpected.encrypted_note ≠ toyParams.encrypted_note :=
  ⟨rfl, by decide⟩

set_option maxRecDepth 8000 in
/-- Witness for C1 on concrete inputs: the identifier-length hypothesis
holds and the seven-element public-input vector is built and handed to
the oracle. -/
theorem verify_proof_public_input_vector_witness :
    (toyGetIdentifier toyBundle.asset_type).length = ASSET_IDENTIFIER_LENGTH ∧
    (∃ i0 i1,
      compute_multipacking
          (bytesToBitsLE (toyGetIdentifier toyBundle.asset_type)) = [i0, i1] ∧
      ([i0, i1, toyBundle.create_asset_commitment, toyBundle.root_hash,
        (toyToAffine toyBundle.value_commitment).1,
        (toyToAffine toyBundle.value_commitment).2,
        toyBundle.mint_asset_commitment] : List Fq).length = 7 ∧
      toyBundle.verify_proof toyToAffine toyGetIdentifier toyOracleOk () =
        some (match toyOracleOk () toyBundle.proof
            [i0, i1, toyBundle.create_asset_commitment, toyBundle.root_hash,
             (toyToAffine toyBundle.value_commitment).1,
             (toyToAffine toyBundle.value_commitment).2,
             toyBundle.mint_asset_commitment] with
          | .error _ => .error SaplingProofError.VerificationFailed
          | .ok _ => .ok ())) :=
  ⟨rfl, verify_proof_public_input_vector toyToAffine toyGetIdentifier
    toyOracleOk () toyBundle rfl⟩

set_option maxRecDepth 8000 in
/-- Witness for C10 on concrete inputs: the identifier-length
hypothesis holds, the multipacking has at least two elements, and
verify_proof avoids the out-of-bounds branch. -/
theorem multipack_identifier_in_bounds_witness :
    (toyGetIdentifier toyBundle.asset_type).length = ASSET_IDENTIFIER_LENGTH ∧
    (2 ≤ (compute_multipacking
        (bytesToBitsLE (toyGetIdentifier toyBundle.asset_type))).length ∧
     (toyBundle.verify_proof toyToAffine toyGetIdentifier
        toyOracleOk ()).isSome = true) :=
  ⟨rfl, multipack_identifier_in_bounds toyToAffine toyGetIdentifier
    toyOracleOk () toyBundle rfl⟩

set_option maxRecDepth 8000 in
/-- Witness for C8 on concrete inputs: the identifier-length hypothesis
holds and the error-mapping characterization applies. -/
theorem verify_proof_error_mapping_witness :
    (toyGetIdentifier toyBundle.asset_type).length = ASSET_IDENTIFIER_LENGTH ∧
    (∃ pi : List Fq,
      (∀ u, toyOracleOk () toyBundle.proof pi = .ok u →
        toyBundle.verify_proof toyToAffine toyGetIdentifier toyOracleOk ()
          = some (.ok ())) ∧
      (∀ e, toyOracleOk () toyBundle.proof pi = .error e →
        toyBundle.verify_proof toyToAffine toyGetIdentifier toyOracleOk ()
          = some (.error SaplingProofError.VerificationFailed)) ∧
      (∀ r, toyBundle.verify_proof toyToAffine toyGetIdentifier toyOracleOk ()
          = some r →
        r = .ok () ∨ r = .error SaplingProofError.VerificationFailed)) :=
  ⟨rfl, verify_proof_error_mapping toyToAffine toyGetIdentifier
    toyOracleOk () toyBundle rfl⟩

/-- Witness for C2 on concrete inputs: all width hypotheses hold and
the layout characterization applies to both serializers. -/
theorem mint_asset_serialization_layout_witness :
    ((toyPointToBytes toyBundle.value_commitment).length = 32 ∧
     (toyGetIdentifier toyBundle.asset_type).length = ASSET_IDENTIFIER_LENGTH ∧
     toyBundle.encrypted_note.length = 12 ∧
     (toyPointToBytes toyParamsZ.value_commitment).length = 32 ∧
     (toyGetIdentifier toyParamsZ.asset_type).length = ASSET_IDENTIFIER_LENGTH ∧
     toyParamsZ.encrypted_note.length = 12) ∧
    (let outb := toyBundle.write toyProofWrite toyPointToBytes toyGetIdentifier
     let outp := toyParamsZ.serialize_signature_fields toyProofWrite
        toyPointToBytes toyGetIdentifier
     let kb := (toyProofWrite toyBundle.proof).length
     let kp := (toyProofWrite toyParamsZ.proof).length
     (outb.length = kb + ASSET_IDENTIFIER_LENGTH + 108 + 32 ∧
      outb.take kb = toyProofWrite toyBundle.proof ∧
      (outb.drop kb).take 32 = fqToBytes toyBundle.create_asset_commitment ∧
      ((outb.drop kb).drop 32).take 32
          = fqToBytes toyBundle.mint_asset_commitment ∧
      (((outb.drop kb).drop 32).drop 32).take 32
          = toyPointToBytes toyBundle.value_commitment ∧
      ((((outb.drop kb).drop 32).drop 32).drop 32).take ASSET_IDENTIFIER_LENGTH
          = toyGetIdentifier toyBundle.asset_type ∧
      (((((outb.drop kb).drop 32).drop 32).drop 32).drop
          ASSET_IDENTIFIER_LENGTH).take 12 = toyBundle.encrypted_note ∧
      (((((outb.drop kb).drop 32).drop 32).drop 32).drop
          ASSET_IDENTIFIER_LENGTH).drop 12 = fqToBytes toyBundle.root_hash) ∧
     (outp.length = kp + ASSET_IDENTIFIER_LENGTH + 108 + 32 ∧
      outp.take kp = toyProofWrite toyParamsZ.proof ∧
      (outp.drop kp).take 32 = fqToBytes toyParamsZ.create_asset_commitment ∧
      ((outp.drop kp).drop 32).take 32
          = fqToBytes toyParamsZ.mint_asset_commitment ∧
      (((outp.drop kp).drop 32).drop 32).take 32
          = toyPointToBytes toyParamsZ.value_commitment ∧
      ((((outp.drop kp).drop 32).drop 32).drop 32).take ASSET_IDENTIFIER_LENGTH
          = toyGetIdentifier toyParamsZ.asset_type ∧
      (((((outp.drop kp).drop 32).drop 32).drop 32).drop
          ASSET_IDENTIFIER_LENGTH).take 12 = toyParamsZ.encrypted_note ∧
      (((((outp.drop kp).drop 32).drop 32).drop 32).drop
          ASSET_IDENTIFIER_LENGTH).drop 12 = fqToBytes toyParamsZ.root_hash)) :=
  ⟨⟨rfl, rfl, rfl, rfl, rfl, rfl⟩,
    mint_asset_serialization_layout toyProofWrite toyPointToBytes
      toyGetIdentifier toyBundle toyParamsZ rfl rfl rfl rfl rfl rfl⟩

/-- Witness for C3 on concrete inputs: the codec round-trip hypotheses
hold for the toy collaborators and decoding the encoding of the toy
bundle returns it exactly, consuming all input. -/
theorem read_write_round_trip_witness :
    ((∀ (pr : Unit) (rest : List Byte),
        toyProofRead (toyProofWrite pr ++ rest) = .ok (pr, rest)) ∧
     (∀ P : Unit, toyPointFromBytes (toyPointToBytes P) = some P) ∧
     (∀ P : Unit, (toyPointToBytes P).length = 32) ∧
     (∀ t : Unit, toyFromIdentifier (toyGetIdentifier t) = .ok t) ∧
     (∀ t : Unit, (toyGetIdentifier t).length = ASSET_IDENTIFIER_LENGTH) ∧
     toyBundle.encrypted_note.length = 12) ∧
    MintAssetProof.read toyProofRead toyPointFromBytes toyFromIdentifier
        (toyBundle.write toyProofWrite toyPointToBytes toyGetIdentifier)
      = .ok (toyBundle, []) :=
  ⟨⟨fun _ _ => rfl, fun _ => rfl, fun _ => rfl, fun _ => rfl, fun _ => rfl, rfl⟩,
    read_write_round_trip toyProofWrite toyProofRead toyPointToBytes
      toyPointFromBytes toyGetIdentifier toyFromIdentifier
      (fun _ _ => rfl) (fun _ => rfl) (fun _ => rfl) (fun _ => rfl)
      (fun _ => rfl) toyBundle rfl⟩

/-- Witness for C9 on concrete inputs: the two bundles agree field by
field and their serializations coincide. -/
theorem signing_and_wire_serialization_agree_witness :
    (toyParamsZ.proof = toyBundle.proof ∧
     toyParamsZ.create_asset_commitment = toyBundle.create_asset_commitment ∧
     toyParamsZ.mint_asset_commitment = toyBundle.mint_asset_commitment ∧
     toyParamsZ.value_commitment = toyBundle.value_commitment ∧
     toyParamsZ.asset_type = toyBundle.asset_type ∧
     toyParamsZ.encrypted_note = toyBundle.encrypted_note ∧
     toyParamsZ.root_hash = toyBundle.root_hash) ∧
    toyParamsZ.serialize_signature_fields toyProofWrite toyPointToBytes
        toyGetIdentifier
      = toyBundle.write toyProofWrite toyPointToBytes toyGetIdentifier :=
  ⟨⟨rfl, rfl, rfl, rfl, rfl, rfl, rfl⟩,
    signing_and_wire_serialization_agree toyProofWrite toyPointToBytes
      toyGetIdentifier toyParamsZ toyBundle rfl rfl rfl rfl rfl rfl rfl⟩

/-- Witness for the amended C5 on concrete inputs: new succeeds and the
field characterization applies. -/
theorem new_bundle_fields_witness :
    MintAssetParams.new toyAssetTypeOf toyValueCommit toyCommitmentOf
        toyFromBytesWide toyPGK toyAuthPath toyRootHash toyProve ()
        toyCreateNote toyMintNote () toyDraw = .ok toyNewExpected ∧
    (toyNewExpected._mint_commitment_randomness = toyMintNote.randomness ∧
     toyNewExpected.create_asset_commitment = toyCreateNote.commitment_point ∧
     toyNewExpected.mint_asset_commitment = toyMintNote.commitment_point ∧
     toyNewExpected.encrypted_note = List.replicate 12 (0 : Byte) ∧
     toyNewExpected.value_commitment = toyCommitmentOf (toyValueCommit
        (toyAssetTypeOf toyMintNote.asset_info) toyMintNote.value
        (toyFromBytesWide toyDraw)) ∧
     toyNewExpected.asset_type = toyAssetTypeOf toyMintNote.asset_info ∧
     toyNewExpected.root_hash = toyRootHash () ∧
     (∃ c : MintAsset Unit Unit Nat Unit Nat,
       toyProve c = .ok toyNewExpected.proof ∧
       c.value_commitment = some (toyValueCommit
          (toyAssetTypeOf toyMintNote.asset_info) toyMintNote.value
          (toyFromBytesWide toyDraw)) ∧
       c.mint_commitment_randomness = some toyMintNote.randomness ∧
       c.create_commitment_randomness = some toyCreateNote.randomness ∧
       c.anchor = some (toyRootHash ()) ∧
       c.proof_generation_key = some (toyPGK ()))) :=
  ⟨rfl, new_bundle_fields toyAssetTypeOf toyValueCommit toyCommitmentOf
    toyFromBytesWide toyPGK toyAuthPath toyRootHash toyProve ()
    toyCreateNote toyMintNote () toyDraw toyNewExpected rfl⟩

set_option maxRecDepth 8000 in
/-- Witness for the amended C7 on concrete inputs: post succeeds and
the copied-field characterization applies. -/
theorem post_public_fields_witness :
    toyParams.post toyToAffine toyGetIdentifier toyOracleOk ()
        = some (.ok toyPostExpected) ∧
    (toyPostExpected.proof = toyParams.proof ∧
     toyPostExpected.create_asset_commitment
        = toyParams.create_asset_commitment ∧
     toyPostExpected.mint_asset_commitment = toyParams.mint_asset_commitment ∧
     toyPostExpected.value_commitment = toyParams.value_commitment ∧
     toyPostExpected.asset_type = toyParams.asset_type ∧
     toyPostExpected.root_hash = toyParams.root_hash ∧
     toyPostExpected.encrypted_note = List.replicate 12 (0 : Byte) ∧
     (∀ r : Nat, MintAssetParams.post toyToAffine toyGetIdentifier toyOracleOk
         () { toyParams with _mint_commitment_randomness := r }
       = toyParams.post toyToAffine toyGetIdentifier toyOracleOk ())) :=
  ⟨rfl, post_public_fields toyToAffine toyGetIdentifier toyOracleOk ()
    toyParams toyPostExpected rfl⟩
